import Mathlib

/-!
Verification of the AWS Batch job lifecycle engine
(`notes/aio_aws/aio_aws_batch.py`).

The Python source is embedded shallowly: dataclasses become structures,
`__post_init__` becomes an explicit `create` constructor, the TinyDB
table becomes a list of `(doc_id, row)` pairs, and each coroutine that
talks to the remote Batch API is turned into a function over a script of
classified call outcomes (success / throttle / other client error).
`asyncio.sleep` pauses carry no state and are dropped.  Python truthiness
on optional strings (`if job.job_id:`) is modelled by `truthyOptStr`;
the explicit `is None` test in the manager is modelled by matching on the
option directly.
-/

namespace AioAwsBatch

/-- Python truthiness of an optional string: `None` and `""` are falsy. -/
def truthyOptStr : Option String → Bool
  | none => false
  | some s => !(s == "")

/-- A value stored in the `container_overrides` mapping.  The engine only
ever writes the `command` key (a list of strings); other values ride along. -/
inductive OvValue where
  | strList : List String → OvValue
  | strVal : String → OvValue
  | intVal : Int → OvValue
deriving DecidableEq, Repr

/-- `container_overrides`: a Python dict, modelled as an association list
in insertion order. -/
abbrev Overrides := List (String × OvValue)

/-- `dict.update({k: v})`: replace the value at `k` in place, or append. -/
def setKey (m : Overrides) (k : String) (v : OvValue) : Overrides :=
  if m.any (fun p => p.1 == k) then
    m.map (fun p => if p.1 == k then (k, v) else p)
  else
    m ++ [(k, v)]

/-- One `depends_on` entry: `{'jobId': ..., ['type': ...]}`. -/
structure DepEntry where
  jobId : String
  depType : Option String
deriving DecidableEq, Repr

/-- A `submit_job` response; the engine reads only `jobId` and stores the
response verbatim in `job_submission`. -/
structure SubmitResponse where
  jobId : String
deriving DecidableEq, Repr

/-- One entry of a `describe_jobs` response (`response["jobs"][i]`).
Fields the engine reads; a missing `statusReason` key is `none`
(reading it raises `KeyError` in Python). -/
structure JobDesc where
  jobId : String
  status : String
  statusReason : Option String
  createdAt : Option Int
  startedAt : Option Int
  stoppedAt : Option Int
deriving DecidableEq, Repr

/-- The `AWSBatchJob` dataclass after `__post_init__` has run. -/
structure AWSBatchJob where
  job_name : String
  job_queue : String
  job_definition : String
  command : Option (List String)
  depends_on : List DepEntry
  container_overrides : Overrides
  job_id : Option String
  status : Option String
  job_tries : List String
  num_tries : Nat
  max_tries : Nat
  job_submission : Option SubmitResponse
  job_description : Option JobDesc
deriving DecidableEq, Repr

/-- The constructor arguments of `AWSBatchJob(...)` before
`__post_init__` runs (dataclass defaults are supplied by the caller). -/
structure JobInit where
  job_name : String
  job_queue : String
  job_definition : String
  command : Option (List String)
  depends_on : Option (List DepEntry)
  container_overrides : Option Overrides
  job_id : Option String
  status : Option String
  job_tries : Option (List String)
  num_tries : Nat
  max_tries : Nat
  job_submission : Option SubmitResponse
  job_description : Option JobDesc
deriving DecidableEq, Repr

/-- `AWSBatchJob.__post_init__`: truncate the name to 128 characters,
default `job_tries` / `depends_on` / `container_overrides`, and fold a
truthy `command` into `container_overrides["command"]`. -/
def AWSBatchJob.create (i : JobInit) : AWSBatchJob :=
  let co := i.container_overrides.getD []
  let co :=
    match i.command with
    | some cmd => if cmd == [] then co else setKey co "command" (OvValue.strList cmd)
    | none => co
  { job_name := i.job_name.take 128
    job_queue := i.job_queue
    job_definition := i.job_definition
    command := i.command
    depends_on := i.depends_on.getD []
    container_overrides := co
    job_id := i.job_id
    status := i.status
    job_tries := i.job_tries.getD []
    num_tries := i.num_tries
    max_tries := i.max_tries
    job_submission := i.job_submission
    job_description := i.job_description }

/-- `AWSBatchJob.reset`: clear the job_id and all related job data. -/
def AWSBatchJob.reset (job : AWSBatchJob) : AWSBatchJob :=
  { job with
    job_id := none
    job_description := none
    job_submission := none
    status := none }

/-- The persisted row: `AWSBatchJob.db_data`. -/
structure DbData where
  job_id : Option String
  job_name : String
  job_queue : String
  job_definition : String
  job_submission : Option SubmitResponse
  job_description : Option JobDesc
  container_overrides : Overrides
  command : Option (List String)
  depends_on : List DepEntry
  status : Option String
  job_tries : List String
  num_tries : Nat
  max_tries : Nat
deriving DecidableEq, Repr

/-- `AWSBatchJob.db_data`: the persistence projection of a job. -/
def AWSBatchJob.db_data (job : AWSBatchJob) : DbData :=
  { job_id := job.job_id
    job_name := job.job_name
    job_queue := job.job_queue
    job_definition := job.job_definition
    job_submission := job.job_submission
    job_description := job.job_description
    container_overrides := job.container_overrides
    command := job.command
    depends_on := job.depends_on
    status := job.status
    job_tries := job.job_tries
    num_tries := job.num_tries
    max_tries := job.max_tries }

/-- `AWSBatchJob(**job_data)`: rebuild a job from a stored row
(`__post_init__` runs again on the stored field values). -/
def jobOfDbData (d : DbData) : AWSBatchJob :=
  AWSBatchJob.create
    { job_name := d.job_name
      job_queue := d.job_queue
      job_definition := d.job_definition
      command := d.command
      depends_on := some d.depends_on
      container_overrides := some d.container_overrides
      job_id := d.job_id
      status := d.status
      job_tries := some d.job_tries
      num_tries := d.num_tries
      max_tries := d.max_tries
      job_submission := d.job_submission
      job_description := d.job_description }

/-- The TinyDB table behind `AWSBatchDB`: documents in insertion order,
each carrying its integer `doc_id`; `nextId` is the next id to assign.
The backing file path and the db semaphore are I/O configuration and are
not modelled. -/
structure AWSBatchDB where
  docs : List (Nat × DbData)
  nextId : Nat
deriving DecidableEq, Repr

/-- An empty TinyDB table (ids start at 1). -/
def emptyDb : AWSBatchDB := { docs := [], nextId := 1 }

/-- `tinydb.upsert(data, cond)`: update every matching document with
`data`, returning the updated ids; if none matches, insert `data` as a
new document and return its id. -/
def upsert (db : AWSBatchDB) (data : DbData) (cond : DbData → Bool) :
    AWSBatchDB × List Nat :=
  let ids := (db.docs.filter (fun d => cond d.2)).map (fun d => d.1)
  if ids.isEmpty then
    ({ docs := db.docs ++ [(db.nextId, data)], nextId := db.nextId + 1 },
     [db.nextId])
  else
    ({ db with docs := db.docs.map (fun d => if cond d.2 then (d.1, data) else d) },
     ids)

/-- `AWSBatchDB.find_by_job_id`: guarded by Python truthiness of the
argument; `tinydb.get` returns the first matching document. -/
def AWSBatchDB.find_by_job_id (db : AWSBatchDB) (job_id : Option String) :
    Option (Nat × DbData) :=
  if truthyOptStr job_id then
    db.docs.find? (fun d => d.2.job_id == job_id)
  else
    none

/-- `AWSBatchDB.find_by_job_name`: `none` models the Python `None`
returned when the name is falsy; otherwise all matching documents. -/
def AWSBatchDB.find_by_job_name (db : AWSBatchDB) (job_name : String) :
    Option (List (Nat × DbData)) :=
  if job_name == "" then none
  else some (db.docs.filter (fun d => d.2.job_name == job_name))

/-- `AWSBatchDB.save`: upsert keyed on `job_id` when it is truthy;
otherwise log "FAIL to save job without job_id" and return `None`
(modelled as `none`; nothing is raised and nothing is written). -/
def AWSBatchDB.save (db : AWSBatchDB) (job : AWSBatchJob) :
    AWSBatchDB × Option (List Nat) :=
  if truthyOptStr job.job_id then
    let r := upsert db job.db_data (fun row => row.job_id == job.job_id)
    (r.1, some r.2)
  else
    (db, none)

/-- `jobs_to_run(jobs, jobs_db)`: the free filtering function.  For each
input, look up the store by name and inspect `jobs_saved[0]`; drop the
input when that first row has a truthy id and status SUCCEEDED;
otherwise drop it when the input itself has a truthy id and in-memory
status SUCCEEDED; otherwise keep it. -/
def jobs_to_run (jobs : List AWSBatchJob) (jobs_db : AWSBatchDB) :
    List AWSBatchJob :=
  match jobs with
  | [] => []
  | job :: rest =>
    let storeDrop : Bool :=
      match jobs_db.find_by_job_name job.job_name with
      | some (jobData :: _) =>
        let job_state := jobOfDbData jobData.2
        truthyOptStr job_state.job_id && (job_state.status == some "SUCCEEDED")
      | _ => false
    if storeDrop then jobs_to_run rest jobs_db
    else if truthyOptStr job.job_id && (job.status == some "SUCCEEDED") then
      jobs_to_run rest jobs_db
    else job :: jobs_to_run rest jobs_db

/-- The exact condition under which `jobs_to_run` drops an input job
(read off the two `continue` branches of the source loop). -/
def dropsInput (jobs_db : AWSBatchDB) (job : AWSBatchJob) : Bool :=
  (match jobs_db.find_by_job_name job.job_name with
   | some (jobData :: _) =>
     let job_state := jobOfDbData jobData.2
     truthyOptStr job_state.job_id && (job_state.status == some "SUCCEEDED")
   | _ => false)
  || (truthyOptStr job.job_id && (job.status == some "SUCCEEDED"))

/-- Modelled from the spec: the "latest" stored row for a name is "the
row whose `job_description.createdAt` is maximal" (§3); used only to
state the claim about `jobs_to_run`, which the source does not implement
this way (its TODO reads "find latest jobId?"). -/
def specLatestByName (db : AWSBatchDB) (name : String) : Option DbData :=
  (db.docs.filter (fun p => p.2.job_name == name)).foldl
    (fun acc p =>
      match acc with
      | none => some p.2
      | some best =>
          let c := fun (d : DbData) =>
            (match d.job_description with
             | some desc => desc.createdAt.getD 0
             | none => 0)
          if c p.2 > c best then some p.2 else some best)
    none

/-! ### Remote API Adapter

Each coroutine is a loop `tries = 0; while tries < retries: tries += 1; ...`
around one client call.  A call outcome is supplied by a script indexed by
the 0-based attempt number.  `TooManyRequestsException` sleeps a jitter
(dropped here) and retries; any other `ClientError` re-raises; when the
loop exhausts `retries` attempts the `while`-`else` raises
`RuntimeError("... exceeded retries")`.  Each function also returns the
total number of attempts consumed. -/

/-- An error escaping an adapter call. -/
inductive AdapterError where
  | retriesExceeded : AdapterError
  | clientError : String → AdapterError
deriving DecidableEq, Repr

/-- One attempt outcome of `client.submit_job`. `success` is a response
for which `response_success` holds (the HTTP 200 family); `failure` is a
response for which it does not (returned to the caller with no job
mutation). -/
inductive SubmitOutcome where
  | success : SubmitResponse → SubmitOutcome
  | failure : SubmitResponse → SubmitOutcome
  | throttle : SubmitOutcome
  | clientError : String → SubmitOutcome

/-- The retry loop of `aio_batch_job_submit`, with `tries` attempts
already made and `fuel = retries - tries` remaining. -/
def submitFrom (script : Nat → SubmitOutcome) :
    AWSBatchJob → Nat → Nat → Except AdapterError SubmitResponse × AWSBatchJob × Nat
  | job, tries, 0 => (Except.error AdapterError.retriesExceeded, job, tries)
  | job, tries, fuel + 1 =>
    match script tries with
    | SubmitOutcome.success resp =>
        (Except.ok resp,
         { job with
           job_id := some resp.jobId
           job_submission := some resp
           job_tries := job.job_tries ++ [resp.jobId]
           num_tries := job.num_tries + 1 },
         tries + 1)
    | SubmitOutcome.failure resp => (Except.ok resp, job, tries + 1)
    | SubmitOutcome.throttle => submitFrom script job (tries + 1) fuel
    | SubmitOutcome.clientError c =>
        (Except.error (AdapterError.clientError c), job, tries + 1)

/-- `aio_batch_job_submit(job, client, config)`: returns the response (or
error), the mutated job, and the number of attempts made. -/
def aio_batch_job_submit (retries : Nat) (script : Nat → SubmitOutcome)
    (job : AWSBatchJob) : Except AdapterError SubmitResponse × AWSBatchJob × Nat :=
  submitFrom script job 0 retries

/-- One attempt outcome of `client.describe_jobs`; a response is the
`"jobs"` list of the raw payload. -/
inductive DescribeOutcome where
  | resp : List JobDesc → DescribeOutcome
  | throttle : DescribeOutcome
  | clientError : String → DescribeOutcome

/-- The retry loop of `aio_batch_job_status`. -/
def describeFrom (script : Nat → DescribeOutcome) :
    Nat → Nat → Except AdapterError (List JobDesc) × Nat
  | tries, 0 => (Except.error AdapterError.retriesExceeded, tries)
  | tries, fuel + 1 =>
    match script tries with
    | DescribeOutcome.resp r => (Except.ok r, tries + 1)
    | DescribeOutcome.throttle => describeFrom script (tries + 1) fuel
    | DescribeOutcome.clientError c =>
        (Except.error (AdapterError.clientError c), tries + 1)

/-- `aio_batch_job_status(jobs, client, config)`. -/
def aio_batch_job_status (retries : Nat) (script : Nat → DescribeOutcome) :
    Except AdapterError (List JobDesc) × Nat :=
  describeFrom script 0 retries

/-- One attempt outcome of `client.terminate_job`. -/
inductive TerminateOutcome where
  | resp : String → TerminateOutcome
  | throttle : TerminateOutcome
  | clientError : String → TerminateOutcome

/-- The retry loop of `aio_batch_job_terminate`. -/
def terminateFrom (script : Nat → TerminateOutcome) :
    Nat → Nat → Except AdapterError String × Nat
  | tries, 0 => (Except.error AdapterError.retriesExceeded, tries)
  | tries, fuel + 1 =>
    match script tries with
    | TerminateOutcome.resp r => (Except.ok r, tries + 1)
    | TerminateOutcome.throttle => terminateFrom script (tries + 1) fuel
    | TerminateOutcome.clientError c =>
        (Except.error (AdapterError.clientError c), tries + 1)

/-- `aio_batch_job_terminate(job_id, reason, client, config)`. -/
def aio_batch_job_terminate (retries : Nat) (script : Nat → TerminateOutcome) :
    Except AdapterError String × Nat :=
  terminateFrom script 0 retries

/-- `parse_job_description(job_id, jobs)`: scan the `"jobs"` list keeping
the last entry whose `jobId` equals `job_id` (the Python loop overwrites
`job_desc` on every match).  The id is optional because the caller passes
`job.job_id`, and in Python `entry["jobId"] == None` is simply `False`. -/
def parse_job_description (job_id : Option String) (jobs : List JobDesc) :
    Option JobDesc :=
  jobs.foldl (fun acc j => if some j.jobId == job_id then some j else acc) none

/-- Character-list prefix test (helper for the regex model). -/
def startsWithChars : List Char → List Char → Bool
  | [], _ => true
  | _ :: _, [] => false
  | p :: ps, c :: cs => p == c && startsWithChars ps cs

/-- Match `.*lit` against a character list: either `lit` matches here, or
consume one character that is not a newline (Python `.` does not match
`\n` without `re.DOTALL`) and continue. -/
def dotStarThen (lit : List Char) : List Char → Bool
  | [] => startsWithChars lit []
  | c :: cs => startsWithChars lit (c :: cs) || (!(c == '\n') && dotStarThen lit cs)

/-- `re.match(r"Host EC2.*terminated", reason)`: anchored at the start of
the string, need not consume all of it, `.` excludes newlines. -/
def spotReclaimMatch (reason : String) : Bool :=
  startsWithChars "Host EC2".toList reason.toList
    && dotStarThen "terminated".toList (reason.toList.drop 8)

/-! ### Job Waiter -/

/-- How a run of `aio_batch_job_waiter` ends. -/
inductive WaiterOutcome where
  /-- `return job_desc` on a FAILED / SUCCEEDED description. -/
  | done : JobDesc → WaiterOutcome
  /-- the `break` after `monitor_failures > retries`; the coroutine then
  falls off its end and returns Python `None`. -/
  | gaveUp : WaiterOutcome
  /-- an adapter error propagated out of `aio_batch_job_status`. -/
  | raised : AdapterError → WaiterOutcome
  /-- model artifact: the poll script ran out while the loop would
  continue (the run shown is a strict prefix of an infinite loop). -/
  | fuelOut : WaiterOutcome
deriving DecidableEq, Repr

/-- The `while True` loop of `aio_batch_job_waiter`, one script entry per
`aio_batch_job_status` call, carrying the `monitor_failures` counter.
The `await delay(...)` pacing calls carry no state and are dropped. -/
def waiterGo (retries : Nat) :
    List (Nat → DescribeOutcome) → AWSBatchJob → Nat → WaiterOutcome × AWSBatchJob
  | [], job, _ => (WaiterOutcome.fuelOut, job)
  | poll :: rest, job, monitor_failures =>
    match aio_batch_job_status retries poll with
    | (Except.error e, _) => (WaiterOutcome.raised e, job)
    | (Except.ok response, _) =>
      match parse_job_description job.job_id response with
      | some job_desc =>
        let job := { job with
                     job_description := some job_desc
                     status := some job_desc.status }
        if job_desc.status == "FAILED" || job_desc.status == "SUCCEEDED" then
          (WaiterOutcome.done job_desc, job)
        else
          waiterGo retries rest job monitor_failures
      | none =>
        let monitor_failures := monitor_failures + 1
        if monitor_failures > retries then
          (WaiterOutcome.gaveUp, job)
        else
          waiterGo retries rest job monitor_failures

/-- `aio_batch_job_waiter(job, client, config)`: the loop entered with
`monitor_failures = 0`. -/
def aio_batch_job_waiter (retries : Nat)
    (polls : List (Nat → DescribeOutcome)) (job : AWSBatchJob) :
    WaiterOutcome × AWSBatchJob :=
  waiterGo retries polls job 0

/-! ### Job Manager -/

/-- The environment of one iteration of the manager loop: a script for
`aio_batch_job_submit` (used only when `job.job_id is None`) and the
describe scripts consumed by `aio_batch_job_waiter`. -/
structure ManagerRound where
  submitScript : Nat → SubmitOutcome
  polls : List (Nat → DescribeOutcome)

/-- How a run of `aio_batch_job_manager` ends. -/
inductive ManagerOutcome where
  /-- `return job_desc` (either SUCCEEDED, or FAILED surfaced). -/
  | done : JobDesc → ManagerOutcome
  /-- the `while`-`else`: "retries exceeded." logged, Python `None`
  returned. -/
  | retriesExceededNone : ManagerOutcome
  /-- the waiter returned `None` and `job_desc["status"]` raised
  `TypeError: 'NoneType' object is not subscriptable`. -/
  | typeErrorNoneSubscript : ManagerOutcome
  /-- an adapter error propagated out of submit or the waiter. -/
  | raised : AdapterError → ManagerOutcome
  /-- model artifact: the round scripts ran out mid-loop. -/
  | fuelOut : ManagerOutcome
deriving DecidableEq, Repr

/-- The submit-or-recover prologue of one manager iteration: when
`job.job_id is None`, submit and then `jobs_db.save(job)`; an adapter
error propagates.  (The explicit `is None` test of the source is an
option match, not truthiness.) -/
def managerSubmitPhase (retries : Nat) (script : Nat → SubmitOutcome)
    (job : AWSBatchJob) (db : AWSBatchDB) :
    Except AdapterError (AWSBatchJob × AWSBatchDB) :=
  match job.job_id with
  | some _ => Except.ok (job, db)
  | none =>
    match aio_batch_job_submit retries script job with
    | (Except.error e, _, _) => Except.error e
    | (Except.ok _, job1, _) => Except.ok (job1, (db.save job1).1)

/-- The `while job.num_tries < job.max_tries` loop of
`aio_batch_job_manager`, one `ManagerRound` per iteration. -/
def managerGo (retries : Nat) :
    List ManagerRound → AWSBatchJob → AWSBatchDB →
      ManagerOutcome × AWSBatchJob × AWSBatchDB
  | [], job, db =>
    if job.num_tries < job.max_tries then (ManagerOutcome.fuelOut, job, db)
    else (ManagerOutcome.retriesExceededNone, job, db)
  | r :: rest, job, db =>
    if job.num_tries < job.max_tries then
      match managerSubmitPhase retries r.submitScript job db with
      | Except.error e => (ManagerOutcome.raised e, job, db)
      | Except.ok (job, db) =>
        match waiterGo retries r.polls job 0 with
        | (WaiterOutcome.raised e, job) => (ManagerOutcome.raised e, job, db)
        | (WaiterOutcome.fuelOut, job) => (ManagerOutcome.fuelOut, job, db)
        | (WaiterOutcome.gaveUp, job) =>
          -- jobs_db.save(job) runs, then `job_desc["status"]` on None raises
          (ManagerOutcome.typeErrorNoneSubscript, job, (db.save job).1)
        | (WaiterOutcome.done job_desc, job) =>
          let db := (db.save job).1
          if job_desc.status == "SUCCEEDED" then
            (ManagerOutcome.done job_desc, job, db)
          else if job_desc.status == "FAILED" then
            match job_desc.statusReason with
            | none =>
              -- KeyError on job_desc["statusReason"], caught: return job_desc
              (ManagerOutcome.done job_desc, job, db)
            | some reason =>
              if spotReclaimMatch reason then
                let job := job.reset
                let db := (db.save job).1
                managerGo retries rest job db
              else
                (ManagerOutcome.done job_desc, job, db)
          else
            managerGo retries rest job db
    else (ManagerOutcome.retriesExceededNone, job, db)

/-- `aio_batch_job_manager(job, jobs_db, client, config)`. -/
def aio_batch_job_manager (retries : Nat) (rounds : List ManagerRound)
    (job : AWSBatchJob) (db : AWSBatchDB) :
    ManagerOutcome × AWSBatchJob × AWSBatchDB :=
  managerGo retries rounds job db

/-! ### Concrete fixtures used across the theorems -/

/-- A fresh job's constructor arguments (all dataclass defaults). -/
def cJobInit : JobInit :=
  { job_name := "t-0000"
    job_queue := "q"
    job_definition := "d"
    command := some ["/bin/sh", "-c", "echo hi"]
    depends_on := none
    container_overrides := none
    job_id := none
    status := none
    job_tries := none
    num_tries := 0
    max_tries := 4
    job_submission := none
    job_description := none }

/-- The same job after one successful submission returning `"J1"` and a
RUNNING describe. -/
def cJobId : AWSBatchJob :=
  { AWSBatchJob.create cJobInit with
    job_id := some "J1"
    status := some "RUNNING"
    job_tries := ["J1"]
    num_tries := 1 }

/-- A describe call whose response contains no entry for the job. -/
def missPoll : Nat → DescribeOutcome := fun _ => DescribeOutcome.resp []

/-- A RUNNING description for `jid`. -/
def runDesc (jid : String) : JobDesc :=
  { jobId := jid, status := "RUNNING", statusReason := none
    createdAt := none, startedAt := none, stoppedAt := none }

/-- A describe call answering RUNNING for `jid`. -/
def runPoll (jid : String) : Nat → DescribeOutcome :=
  fun _ => DescribeOutcome.resp [runDesc jid]

/-- A SUCCEEDED description for `jid`. -/
def succDesc (jid : String) : JobDesc :=
  { jobId := jid, status := "SUCCEEDED", statusReason := none
    createdAt := none, startedAt := none, stoppedAt := none }

/-- A describe call answering SUCCEEDED for `jid`. -/
def succPoll (jid : String) : Nat → DescribeOutcome :=
  fun _ => DescribeOutcome.resp [succDesc jid]

/-- A FAILED description for `"J1"` carrying `statusReason = reason`. -/
def failedDesc (reason : String) : JobDesc :=
  { jobId := "J1", status := "FAILED", statusReason := some reason
    createdAt := none, startedAt := none, stoppedAt := none }

/-- A manager round whose describe yields the FAILED description (its
submit script is never consulted because `job_id` is present). -/
def round1 (reason : String) : ManagerRound :=
  ⟨fun _ => SubmitOutcome.throttle, [fun _ => DescribeOutcome.resp [failedDesc reason]]⟩

/-- A manager round whose submit returns `"J2"` and whose describe then
reports SUCCEEDED. -/
def round2 : ManagerRound :=
  ⟨fun _ => SubmitOutcome.success ⟨"J2"⟩, [succPoll "J2"]⟩

/-- `cJobId` after the waiter copied in the FAILED description. -/
def cJobIdFailed (reason : String) : AWSBatchJob :=
  { cJobId with
    job_description := some (failedDesc reason)
    status := some "FAILED" }

/-- A stored row for `name` with the given id, status and
`job_description.createdAt`. -/
def mkRow (jid : Option String) (name : String) (st : Option String)
    (created : Int) : DbData :=
  { job_id := jid, job_name := name, job_queue := "q", job_definition := "d"
    job_submission := none
    job_description := some
      { jobId := jid.getD "", status := st.getD "", statusReason := none
        createdAt := some created, startedAt := none, stoppedAt := none }
    container_overrides := [], command := none, depends_on := []
    status := st, job_tries := [], num_tries := 0, max_tries := 4 }

/-- A store holding two rows for the name `"t-0000"`: the first (in
store order) SUCCEEDED with `createdAt = 1`, the second FAILED with
`createdAt = 2`. -/
def cDb : AWSBatchDB :=
  { docs := [(1, mkRow (some "Ja") "t-0000" (some "SUCCEEDED") 1),
             (2, mkRow (some "Jb") "t-0000" (some "FAILED") 2)]
    nextId := 3 }

/-- `retries + 1` misses, each separated by a successful RUNNING
describe for `jid`. -/
def altMissScript (jid : String) : Nat → List (Nat → DescribeOutcome)
  | 0 => [missPoll]
  | n + 1 => missPoll :: runPoll jid :: altMissScript jid n

/-- The attempt-count invariant: `num_tries == len(job_tries)`. -/
def triesInvariant (job : AWSBatchJob) : Prop :=
  job.num_tries = job.job_tries.length

/-! ### Claim theorems -/

/-- C8: for every Job Record, `reset()` sets `job_id`, `job_submission`,
`job_description` and `status` to absent, and leaves `job_name`,
`job_tries`, `num_tries`, `max_tries` and every other field unchanged. -/
theorem C8_reset_clears_and_preserves (job : AWSBatchJob) :
    job.reset.job_id = none ∧ job.reset.job_submission = none ∧
    job.reset.job_description = none ∧ job.reset.status = none ∧
    job.reset.job_name = job.job_name ∧ job.reset.job_tries = job.job_tries ∧
    job.reset.num_tries = job.num_tries ∧ job.reset.max_tries = job.max_tries ∧
    job.reset.job_queue = job.job_queue ∧
    job.reset.job_definition = job.job_definition ∧
    job.reset.command = job.command ∧ job.reset.depends_on = job.depends_on ∧
    job.reset.container_overrides = job.container_overrides :=
  ⟨rfl, rfl, rfl, rfl, rfl, rfl, rfl, rfl, rfl, rfl, rfl, rfl, rfl⟩

/-- When every attempt throttles, the submit loop consumes all remaining
fuel and ends in `RetriesExceeded` with the job unchanged. -/
theorem submitFrom_all_throttle (script : Nat → SubmitOutcome)
    (h : ∀ i, script i = SubmitOutcome.throttle) (job : AWSBatchJob) :
    ∀ fuel tries,
      submitFrom script job tries fuel
        = (Except.error AdapterError.retriesExceeded, job, tries + fuel) := by
  intro fuel
  induction fuel with
  | zero => intro tries; simp [submitFrom]
  | succ n ih =>
    intro tries
    rw [submitFrom.eq_def]
    simp only [h tries]
    rw [ih (tries + 1)]
    have : tries + 1 + n = tries + (n + 1) := by omega
    rw [this]

/-- When every attempt throttles, the describe loop consumes all
remaining fuel and ends in `RetriesExceeded`. -/
theorem describeFrom_all_throttle (script : Nat → DescribeOutcome)
    (h : ∀ i, script i = DescribeOutcome.throttle) :
    ∀ fuel tries,
      describeFrom script tries fuel
        = (Except.error AdapterError.retriesExceeded, tries + fuel) := by
  intro fuel
  induction fuel with
  | zero => intro tries; simp [describeFrom]
  | succ n ih =>
    intro tries
    rw [describeFrom.eq_def]
    simp only [h tries]
    rw [ih (tries + 1)]
    have : tries + 1 + n = tries + (n + 1) := by omega
    rw [this]

/-- When every attempt throttles, the terminate loop consumes all
remaining fuel and ends in `RetriesExceeded`. -/
theorem terminateFrom_all_throttle (script : Nat → TerminateOutcome)
    (h : ∀ i, script i = TerminateOutcome.throttle) :
    ∀ fuel tries,
      terminateFrom script tries fuel
        = (Except.error AdapterError.retriesExceeded, tries + fuel) := by
  intro fuel
  induction fuel with
  | zero => intro tries; simp [terminateFrom]
  | succ n ih =>
    intro tries
    rw [terminateFrom.eq_def]
    simp only [h tries]
    rw [ih (tries + 1)]
    have : tries + 1 + n = tries + (n + 1) := by omega
    rw [this]

/-- C4: for each Adapter operation (submit, describe, terminate), if
every attempt raises `TooManyRequestsException`, the operation makes
exactly `retries` attempts in total (the first plus `retries - 1`
retries) and then fails with `RetriesExceeded`. -/
theorem C4_throttle_retries (retries : Nat) (job : AWSBatchJob)
    (s1 : Nat → SubmitOutcome) (s2 : Nat → DescribeOutcome)
    (s3 : Nat → TerminateOutcome)
    (h1 : ∀ i, s1 i = SubmitOutcome.throttle)
    (h2 : ∀ i, s2 i = DescribeOutcome.throttle)
    (h3 : ∀ i, s3 i = TerminateOutcome.throttle) :
    aio_batch_job_submit retries s1 job
        = (Except.error AdapterError.retriesExceeded, job, retries)
    ∧ aio_batch_job_status retries s2
        = (Except.error AdapterError.retriesExceeded, retries)
    ∧ aio_batch_job_terminate retries s3
        = (Except.error AdapterError.retriesExceeded, retries) := by
  refine ⟨?_, ?_, ?_⟩
  · have := submitFrom_all_throttle s1 h1 job retries 0
    simpa [aio_batch_job_submit] using this
  · have := describeFrom_all_throttle s2 h2 retries 0
    simpa [aio_batch_job_status] using this
  · have := terminateFrom_all_throttle s3 h3 retries 0
    simpa [aio_batch_job_terminate] using this

/-- Witness for C4 at `retries = 5` and constant throttle scripts. -/
theorem C4_throttle_retries_witness :
    aio_batch_job_submit 5 (fun _ => SubmitOutcome.throttle)
        (AWSBatchJob.create cJobInit)
      = (Except.error AdapterError.retriesExceeded, AWSBatchJob.create cJobInit, 5)
    ∧ aio_batch_job_status 5 (fun _ => DescribeOutcome.throttle)
        = (Except.error AdapterError.retriesExceeded, 5)
    ∧ aio_batch_job_terminate 5 (fun _ => TerminateOutcome.throttle)
        = (Except.error AdapterError.retriesExceeded, 5) :=
  C4_throttle_retries 5 (AWSBatchJob.create cJobInit) _ _ _
    (fun _ => rfl) (fun _ => rfl) (fun _ => rfl)

/-- C2 (code bug): with `retries = 1` and two consecutive missing
describe entries, the waiter gives up (returning Python `None`, not a
description), and the manager then evaluates `job_desc["status"]` on
that `None`, raising `TypeError` instead of treating the return as
non-terminal and continuing its `max_tries` loop. -/
theorem C2_waiter_giveup_crashes_manager :
    (waiterGo 1 [missPoll, missPoll] cJobId 0).1 = WaiterOutcome.gaveUp
    ∧ (managerGo 1 [⟨fun _ => SubmitOutcome.throttle, [missPoll, missPoll]⟩]
          cJobId emptyDb).1 = ManagerOutcome.typeErrorNoneSubscript
    ∧ (waiterGo 1 [missPoll, missPoll] cJobId 0).2.status = some "RUNNING" := by
  refine ⟨rfl, rfl, rfl⟩

/-- C5 counterexample: with `retries = 1` the script
miss, RUNNING, miss never produces two consecutive misses (and the
middle describe succeeds, as the final job status shows), yet the waiter
gives up: `monitor_failures` is cumulative and is not reset by a
successful describe. -/
theorem C5_counterexample :
    (waiterGo 1 [missPoll, runPoll "J1", missPoll] cJobId 0).1
        = WaiterOutcome.gaveUp
    ∧ (waiterGo 1 [missPoll, runPoll "J1", missPoll] cJobId 0).2.status
        = some "RUNNING" :=
  ⟨rfl, rfl⟩

/-- With at least one adapter retry, a `missPoll` describe call returns
an empty jobs list on its first attempt. -/
theorem status_missPoll (retries : Nat) (hr : 1 ≤ retries) :
    aio_batch_job_status retries missPoll = (Except.ok [], 1) := by
  cases retries with
  | zero => omega
  | succ n => simp [aio_batch_job_status, describeFrom, missPoll]

/-- With at least one adapter retry, a `runPoll jid` describe call
returns the RUNNING description on its first attempt. -/
theorem status_runPoll (jid : String) (retries : Nat) (hr : 1 ≤ retries) :
    aio_batch_job_status retries (runPoll jid) = (Except.ok [runDesc jid], 1) := by
  cases retries with
  | zero => omega
  | succ n => simp [aio_batch_job_status, describeFrom, runPoll]

/-- With at least one adapter retry, a `succPoll jid` describe call
returns the SUCCEEDED description on its first attempt. -/
theorem status_succPoll (jid : String) (retries : Nat) (hr : 1 ≤ retries) :
    aio_batch_job_status retries (succPoll jid) = (Except.ok [succDesc jid], 1) := by
  cases retries with
  | zero => omega
  | succ n => simp [aio_batch_job_status, describeFrom, succPoll]

/-- On `altMissScript`, the waiter gives up as soon as the cumulative
miss count passes `retries`, even though no two misses are adjacent. -/
theorem waiterGo_altMissScript (retries : Nat) (jid : String) (hr : 1 ≤ retries) :
    ∀ (k f : Nat) (job : AWSBatchJob), job.job_id = some jid → f + k = retries →
      (waiterGo retries (altMissScript jid k) job f).1 = WaiterOutcome.gaveUp := by
  intro k
  induction k with
  | zero =>
    intro f job hid hf
    simp only [altMissScript, waiterGo, status_missPoll retries hr,
      parse_job_description, List.foldl_nil]
    have : f + 1 > retries := by omega
    simp [this]
  | succ n ih =>
    intro f job hid hf
    simp only [altMissScript, waiterGo, status_missPoll retries hr,
      parse_job_description, List.foldl_nil]
    simp only [if_neg (by omega : ¬(f + 1 > retries))]
    rw [waiterGo.eq_def]
    simp only [status_runPoll jid retries hr]
    simp [parse_job_description, runDesc, hid]
    exact ih (f + 1) _ (by simp [hid]) (by omega)

/-- As long as the cumulative miss count stays at or below `retries`, the
waiter keeps polling and still reaches a terminal SUCCEEDED describe. -/
theorem waiterGo_replicate_miss (retries : Nat) (jid : String) (hr : 1 ≤ retries) :
    ∀ (k f : Nat) (job : AWSBatchJob), job.job_id = some jid → f + k ≤ retries →
      (waiterGo retries (List.replicate k missPoll ++ [succPoll jid]) job f).1
        = WaiterOutcome.done (succDesc jid) := by
  intro k
  induction k with
  | zero =>
    intro f job hid hf
    rw [List.replicate_zero, List.nil_append, waiterGo.eq_def]
    simp only [status_succPoll jid retries hr]
    simp [parse_job_description, succDesc, hid]
  | succ n ih =>
    intro f job hid hf
    rw [List.replicate_succ, List.cons_append, waiterGo.eq_def]
    simp only [status_missPoll retries hr]
    simp only [parse_job_description, List.foldl_nil]
    simp only [if_neg (by omega : ¬(f + 1 > retries))]
    exact ih (f + 1) job hid (by omega)

/-- C5 (amended): missing describe entries are counted cumulatively over
the whole waiter run, not consecutively: the waiter tolerates `retries`
total misses and gives up on the `retries + 1`-st, and a successful
describe between misses does not reset the tolerance.  (Needs at least
one adapter retry, else every describe call itself raises.) -/
theorem C5_amended_cumulative_misses (retries : Nat) (job : AWSBatchJob)
    (jid : String) (hid : job.job_id = some jid) (hr : 1 ≤ retries) :
    (waiterGo retries (altMissScript jid retries) job 0).1 = WaiterOutcome.gaveUp
    ∧ (waiterGo retries (List.replicate retries missPoll ++ [succPoll jid]) job 0).1
        = WaiterOutcome.done (succDesc jid) :=
  ⟨waiterGo_altMissScript retries jid hr retries 0 job hid (by omega),
   waiterGo_replicate_miss retries jid hr retries 0 job hid (by omega)⟩

/-- Witness for C5 (amended) at `retries = 1` on the concrete job. -/
theorem C5_amended_cumulative_misses_witness :
    (waiterGo 1 (altMissScript "J1" 1) cJobId 0).1 = WaiterOutcome.gaveUp
    ∧ (waiterGo 1 (List.replicate 1 missPoll ++ [succPoll "J1"]) cJobId 0).1
        = WaiterOutcome.done (succDesc "J1") :=
  C5_amended_cumulative_misses 1 cJobId "J1" rfl (by omega)

/-- If some document matches `cond`, updating every matching document
with `data` makes the first match found equal `data`. -/
theorem find?_update_eq (cond : DbData → Bool) (data : DbData)
    (hc : cond data = true) :
    ∀ docs : List (Nat × DbData), (∃ p ∈ docs, cond p.2 = true) →
      ∃ i, ((docs.map (fun d => if cond d.2 then (d.1, data) else d)).find?
              (fun d => cond d.2)) = some (i, data) := by
  intro docs
  induction docs with
  | nil => rintro ⟨p, hp, _⟩; exact absurd hp (List.not_mem_nil p)
  | cons d ds ih =>
    intro hex
    by_cases h : cond d.2 = true
    · exact ⟨d.1, by simp [List.find?_cons, h, hc]⟩
    · have h' : cond d.2 = false := by simpa using h
      obtain ⟨p, hp, hpc⟩ := hex
      rcases List.mem_cons.mp hp with rfl | hmem
      · rw [hpc] at h'; cases h'
      · obtain ⟨i, hi⟩ := ih ⟨p, hmem, hpc⟩
        exact ⟨i, by simp [List.find?_cons, h', hi]⟩

/-- If no document matches `cond`, the appended document is the first
match after insertion. -/
theorem find?_append_single (cond : DbData → Bool) (x : Nat × DbData)
    (hx : cond x.2 = true) :
    ∀ docs : List (Nat × DbData), (∀ p ∈ docs, cond p.2 = false) →
      (docs ++ [x]).find? (fun d => cond d.2) = some x := by
  intro docs
  induction docs with
  | nil => intro _; simp [List.find?_cons, hx]
  | cons d ds ih =>
    intro hall
    have hd : cond d.2 = false := hall d (by simp)
    have := ih (fun p hp => hall p (by simp [hp]))
    simp [List.find?_cons, hd, this]

/-- After `upsert db data cond` with `cond data` true, the first document
matching `cond` holds exactly `data`. -/
theorem upsert_find? (db : AWSBatchDB) (data : DbData) (cond : DbData → Bool)
    (hc : cond data = true) :
    ∃ i, ((upsert db data cond).1.docs.find? (fun d => cond d.2))
            = some (i, data) := by
  rw [upsert]
  by_cases he :
      ((db.docs.filter (fun d => cond d.2)).map (fun d => d.1)).isEmpty = true
  · have hnil : db.docs.filter (fun d => cond d.2) = [] := by
      rcases hfil : db.docs.filter (fun d => cond d.2) with _ | ⟨a, l⟩
      · exact hfil
      · rw [hfil] at he; simp [List.isEmpty] at he
    have hall : ∀ p ∈ db.docs, cond p.2 = false := by
      intro p hp
      by_contra hcp
      have : p ∈ db.docs.filter (fun d => cond d.2) :=
        List.mem_filter.mpr ⟨hp, by simpa using hcp⟩
      rw [hnil] at this
      exact absurd this (List.not_mem_nil p)
    refine ⟨db.nextId, ?_⟩
    simp only [he, if_true]
    exact find?_append_single cond (db.nextId, data) hc db.docs hall
  · have hex : ∃ p ∈ db.docs, cond p.2 = true := by
      rcases hfil : db.docs.filter (fun d => cond d.2) with _ | ⟨a, l⟩
      · rw [hfil] at he; simp at he
      · have ha : a ∈ db.docs.filter (fun d => cond d.2) := by rw [hfil]; simp
        have := List.mem_filter.mp ha
        exact ⟨a, this.1, by simpa using this.2⟩
    obtain ⟨i, hi⟩ := find?_update_eq cond data hc db.docs hex
    refine ⟨i, ?_⟩
    simp only [he, if_false]
    exact hi

/-- C7: for every Job Record with a (truthy) `job_id`, after `save(r)` a
`find_by_job_id(r.job_id)` returns a document whose contents equal
`r.db_data`. -/
theorem C7_save_find_roundtrip (db : AWSBatchDB) (job : AWSBatchJob)
    (h : truthyOptStr job.job_id = true) :
    ∃ i, (db.save job).1.find_by_job_id job.job_id = some (i, job.db_data) := by
  have hc : (fun row => row.job_id == job.job_id) job.db_data = true := by
    simp [AWSBatchJob.db_data]
  obtain ⟨i, hi⟩ :=
    upsert_find? db job.db_data (fun row => row.job_id == job.job_id) hc
  refine ⟨i, ?_⟩
  rw [AWSBatchDB.save]
  simp only [h, if_true]
  rw [AWSBatchDB.find_by_job_id]
  simp only [h, if_true]
  exact hi

/-- Witness for C7 on the concrete submitted job. -/
theorem C7_save_find_roundtrip_witness :
    ∃ i, (emptyDb.save cJobId).1.find_by_job_id cJobId.job_id
            = some (i, cJobId.db_data) :=
  C7_save_find_roundtrip emptyDb cJobId rfl

/-- C6 counterexample: saving the same already-stored record a second
time leaves the store unchanged even though its `job_id` is present, so
"the store is unchanged if and only if `job_id` is absent" fails in the
only-if direction. -/
theorem C6_counterexample :
    truthyOptStr cJobId.job_id = true
    ∧ ((emptyDb.save cJobId).1.save cJobId).1 = (emptyDb.save cJobId).1 :=
  ⟨rfl, rfl⟩

/-- C6 (amended): when `job_id` is absent (falsy), `save` leaves the
store unchanged and returns the logged-`MissingId` value `None` without
raising; when `job_id` is present, the row keyed by it is upserted with
`db_data` and the stored (non-empty) id list is returned — though the
store may coincide with its previous value when the row was already
stored identically. -/
theorem C6_amended_save (db : AWSBatchDB) (job : AWSBatchJob) :
    (truthyOptStr job.job_id = false → db.save job = (db, none))
    ∧ (truthyOptStr job.job_id = true →
        (∃ ids, (db.save job).2 = some ids ∧ ids ≠ [])
        ∧ ∃ i, ((db.save job).1.docs.find?
                  (fun d => d.2.job_id == job.job_id)) = some (i, job.db_data)) := by
  constructor
  · intro h
    rw [AWSBatchDB.save]
    simp [h]
  · intro h
    have hc : (fun row => row.job_id == job.job_id) job.db_data = true := by
      simp [AWSBatchJob.db_data]
    constructor
    · rw [AWSBatchDB.save]
      simp only [h, if_true]
      refine ⟨(upsert db job.db_data (fun row => row.job_id == job.job_id)).2,
        rfl, ?_⟩
      rw [upsert]
      cases hb : ((db.docs.filter (fun d => d.2.job_id == job.job_id)).map
          (fun d => d.1)).isEmpty with
      | true => simp [hb]
      | false =>
        simp only [hb, Bool.false_eq_true, if_false]
        intro hnil
        rw [hnil] at hb
        simp at hb
    · have := upsert_find? db job.db_data
        (fun row => row.job_id == job.job_id) hc
      rw [AWSBatchDB.save]
      simpa [h] using this

/-- Witness for C6 (amended): the absent-id branch on a fresh job and
the present-id branch on the submitted job. -/
theorem C6_amended_save_witness :
    (emptyDb.save (AWSBatchJob.create cJobInit) = (emptyDb, none))
    ∧ ((∃ ids, (emptyDb.save cJobId).2 = some ids ∧ ids ≠ [])
        ∧ ∃ i, ((emptyDb.save cJobId).1.docs.find?
                  (fun d => d.2.job_id == cJobId.job_id))
                = some (i, cJobId.db_data)) :=
  ⟨(C6_amended_save emptyDb (AWSBatchJob.create cJobInit)).1 rfl,
   (C6_amended_save emptyDb cJobId).2 rfl⟩

/-- C10: `jobs_to_run` drops an input whose own `job_id` is present and
whose in-memory status is SUCCEEDED even when the store holds no row at
all for its `job_name`; the decision comes from the in-memory record. -/
theorem C10_memory_succeeded_drop (db : AWSBatchDB) (job : AWSBatchJob)
    (rest : List AWSBatchJob)
    (hnone : ∀ p ∈ db.docs, p.2.job_name ≠ job.job_name)
    (hid : truthyOptStr job.job_id = true)
    (hst : job.status = some "SUCCEEDED") :
    jobs_to_run (job :: rest) db = jobs_to_run rest db := by
  have hfil : db.docs.filter (fun d => d.2.job_name == job.job_name) = [] := by
    rw [List.filter_eq_nil_iff]
    intro p hp
    simpa using hnone p hp
  simp only [jobs_to_run, AWSBatchDB.find_by_job_name]
  by_cases hn : job.job_name = ""
  · simp [hn, hid, hst]
  · simp [hn, hfil, hid, hst]

/-- Witness for C10: a submitted SUCCEEDED job against the empty store. -/
theorem C10_memory_succeeded_drop_witness :
    jobs_to_run
        [{ AWSBatchJob.create cJobInit with
           job_id := some "Jx", status := some "SUCCEEDED" }] emptyDb
      = jobs_to_run [] emptyDb :=
  C10_memory_succeeded_drop emptyDb _ [] (by intro p hp; simp [emptyDb] at hp)
    rfl rfl

set_option maxRecDepth 8000 in
/-- C1 counterexample: in `cDb` the latest row for `"t-0000"` (maximal
`job_description.createdAt`, the claim's selection rule) has status
FAILED, so the claim says the input is included — but the code consults
`jobs_saved[0]`, the SUCCEEDED first row, and drops it. -/
theorem C1_counterexample :
    (specLatestByName cDb "t-0000").map DbData.status = some (some "FAILED")
    ∧ jobs_to_run [AWSBatchJob.create cJobInit] cDb = [] := by
  refine ⟨rfl, ?_⟩
  decide

/-- C1 (amended): `jobs_to_run` keeps exactly the inputs not dropped by
`dropsInput`: an input is dropped when the first stored row returned for
its `job_name` (store order, not latest `createdAt`) has a truthy
`job_id` and status SUCCEEDED, or when the input's own `job_id` is
truthy and its in-memory status is SUCCEEDED; it is included
otherwise. -/
theorem C1_amended_store_filter (jobs : List AWSBatchJob) (db : AWSBatchDB) :
    jobs_to_run jobs db = jobs.filter (fun job => !dropsInput db job) := by
  induction jobs with
  | nil => rfl
  | cons job rest ih =>
    simp only [jobs_to_run, dropsInput, List.filter_cons, ih]
    rcases hf : db.find_by_job_name job.job_name with _ | ⟨_ | ⟨d, ds⟩⟩
    · cases hm : truthyOptStr job.job_id && (job.status == some "SUCCEEDED") <;>
        simp [hm]
    · cases hm : truthyOptStr job.job_id && (job.status == some "SUCCEEDED") <;>
        simp [hm]
    · cases hs : truthyOptStr (jobOfDbData d.2).job_id &&
          ((jobOfDbData d.2).status == some "SUCCEEDED") with
      | true => simp [hs]
      | false =>
        cases hm : truthyOptStr job.job_id && (job.status == some "SUCCEEDED") <;>
          simp [hs, hm]

/-- C3: when the waiter hands the manager a FAILED description with a
`statusReason`, the manager resets the job and continues its loop (and
so resubmits within `max_tries`) exactly when the reason matches
`Host EC2.*terminated`; otherwise it returns the failed description.
Concretely: on the two-round scenario the final outcome is the second
(resubmitted) job's SUCCEEDED description with `job_tries = ["J1","J2"]`
when the reason matches, and the surfaced FAILED description with
`job_tries = ["J1"]` when it does not; the regex matches
`Host EC2 (instance abc) terminated` and not `Dependent Job failed`. -/
theorem C3_selective_spot_retry :
    (∀ (retries : Nat) (r : ManagerRound) (rest : List ManagerRound)
        (job : AWSBatchJob) (db : AWSBatchDB) (jid : String) (desc : JobDesc)
        (reason : String) (job' : AWSBatchJob),
        job.job_id = some jid → job.num_tries < job.max_tries →
        waiterGo retries r.polls job 0 = (WaiterOutcome.done desc, job') →
        desc.status = "FAILED" → desc.statusReason = some reason →
        managerGo retries (r :: rest) job db =
          (if spotReclaimMatch reason then
            managerGo retries rest job'.reset
              (((db.save job').1.save job'.reset).1)
          else
            (ManagerOutcome.done desc, job', (db.save job').1)))
    ∧ (∀ reason : String,
        (managerGo 5 [round1 reason, round2] cJobId emptyDb).1 =
          (if spotReclaimMatch reason then ManagerOutcome.done (succDesc "J2")
           else ManagerOutcome.done (failedDesc reason))
        ∧ (managerGo 5 [round1 reason, round2] cJobId emptyDb).2.1.job_tries =
          (if spotReclaimMatch reason then ["J1", "J2"] else ["J1"]))
    ∧ spotReclaimMatch "Host EC2 (instance abc) terminated" = true
    ∧ spotReclaimMatch "Dependent Job failed" = false := by
  have key : ∀ (retries : Nat) (r : ManagerRound) (rest : List ManagerRound)
      (job : AWSBatchJob) (db : AWSBatchDB) (jid : String) (desc : JobDesc)
      (reason : String) (job' : AWSBatchJob),
      job.job_id = some jid → job.num_tries < job.max_tries →
      waiterGo retries r.polls job 0 = (WaiterOutcome.done desc, job') →
      desc.status = "FAILED" → desc.statusReason = some reason →
      managerGo retries (r :: rest) job db =
        (if spotReclaimMatch reason then
          managerGo retries rest job'.reset
            (((db.save job').1.save job'.reset).1)
        else
          (ManagerOutcome.done desc, job', (db.save job').1)) := by
    intro retries r rest job db jid desc reason job' hid hlt hw hs hr
    rw [managerGo.eq_def]
    simp only [if_pos hlt, managerSubmitPhase, hid, hw, hs, hr]
    simp
  refine ⟨key, ?_, by decide, by decide⟩
  intro reason
  have hw1 : waiterGo 5 (round1 reason).polls cJobId 0
      = (WaiterOutcome.done (failedDesc reason), cJobIdFailed reason) := rfl
  have happ := key 5 (round1 reason) [round2] cJobId emptyDb "J1"
    (failedDesc reason) reason (cJobIdFailed reason) rfl (by decide) hw1 rfl rfl
  rw [happ]
  by_cases hm : spotReclaimMatch reason = true
  · simp only [if_pos hm]
    constructor <;> trivial
  · simp only [if_neg hm]
    constructor <;> trivial

/-- Witness for C3 on the non-matching reason `Dependent Job failed`. -/
theorem C3_selective_spot_retry_witness :
    managerGo 5 [round1 "Dependent Job failed"] cJobId emptyDb =
      (if spotReclaimMatch "Dependent Job failed" then
        managerGo 5 [] ((cJobIdFailed "Dependent Job failed").reset)
          (((emptyDb.save (cJobIdFailed "Dependent Job failed")).1.save
              ((cJobIdFailed "Dependent Job failed").reset)).1)
      else
        (ManagerOutcome.done (failedDesc "Dependent Job failed"),
         cJobIdFailed "Dependent Job failed",
         (emptyDb.save (cJobIdFailed "Dependent Job failed")).1)) :=
  C3_selective_spot_retry.1 5 (round1 "Dependent Job failed") [] cJobId emptyDb
    "J1" (failedDesc "Dependent Job failed") "Dependent Job failed"
    (cJobIdFailed "Dependent Job failed") rfl (by decide) rfl rfl rfl

/-- The submit loop preserves the attempt-count invariant: a successful
attempt appends the new id and increments the counter together; every
other path leaves both untouched. -/
theorem submitFrom_triesInvariant (script : Nat → SubmitOutcome) :
    ∀ (fuel : Nat) (job : AWSBatchJob) (tries : Nat), triesInvariant job →
      triesInvariant (submitFrom script job tries fuel).2.1 := by
  intro fuel
  induction fuel with
  | zero => intro job tries h; exact h
  | succ n ih =>
    intro job tries h
    cases hs : script tries with
    | success resp =>
      simp only [submitFrom, hs]
      simp only [triesInvariant] at h ⊢
      simp [h]
    | failure resp => simp only [submitFrom, hs]; exact h
    | throttle => simp only [submitFrom, hs]; exact ih job (tries + 1) h
    | clientError c => simp only [submitFrom, hs]; exact h

/-- The waiter only rewrites `job_description` and `status`, so it
preserves the attempt-count invariant. -/
theorem waiterGo_triesInvariant (retries : Nat) :
    ∀ (polls : List (Nat → DescribeOutcome)) (job : AWSBatchJob) (f : Nat),
      triesInvariant job → triesInvariant (waiterGo retries polls job f).2 := by
  intro polls
  induction polls with
  | nil => intro job f h; exact h
  | cons poll rest ih =>
    intro job f h
    rcases hst : aio_batch_job_status retries poll with ⟨res, tries⟩
    cases res with
    | error e => simp only [waiterGo, hst]; exact h
    | ok response =>
      cases hp : parse_job_description job.job_id response with
      | some jd =>
        simp only [waiterGo, hst, hp]
        split
        · exact h
        · exact ih _ f h
      | none =>
        simp only [waiterGo, hst, hp]
        split
        · exact h
        · exact ih _ (f + 1) h

/-- `reset` does not touch `job_tries` or `num_tries`. -/
theorem reset_triesInvariant (job : AWSBatchJob) (h : triesInvariant job) :
    triesInvariant job.reset := h

/-- `save` returns the job unchanged, and the submit phase preserves the
invariant through submit and save. -/
theorem managerSubmitPhase_triesInvariant (retries : Nat)
    (script : Nat → SubmitOutcome) (job : AWSBatchJob) (db : AWSBatchDB)
    (h : triesInvariant job) :
    ∀ job1 db1, managerSubmitPhase retries script job db = Except.ok (job1, db1) →
      triesInvariant job1 := by
  intro job1 db1 heq
  rw [managerSubmitPhase] at heq
  cases hid : job.job_id with
  | some j =>
    rw [hid] at heq
    simp only [Except.ok.injEq, Prod.mk.injEq] at heq
    rw [← heq.1]
    exact h
  | none =>
    rw [hid] at heq
    rcases hs : aio_batch_job_submit retries script job with ⟨res, j1, t⟩
    cases res with
    | error e => rw [hs] at heq; simp at heq
    | ok resp =>
      rw [hs] at heq
      simp only [Except.ok.injEq, Prod.mk.injEq] at heq
      obtain ⟨hj, hdb⟩ := heq
      subst hj
      have hv := submitFrom_triesInvariant script retries job 0 h
      rw [aio_batch_job_submit] at hs
      rw [hs] at hv
      exact hv

/-- The manager loop preserves the attempt-count invariant. -/
theorem managerGo_triesInvariant (retries : Nat) :
    ∀ (rounds : List ManagerRound) (job : AWSBatchJob) (db : AWSBatchDB),
      triesInvariant job → triesInvariant (managerGo retries rounds job db).2.1 := by
  intro rounds
  induction rounds with
  | nil =>
    intro job db h
    simp only [managerGo]
    split <;> exact h
  | cons r rest ih =>
    intro job db h
    simp only [managerGo]
    by_cases hl : job.num_tries < job.max_tries
    case neg => simp only [if_neg hl]; exact h
    case pos =>
      simp only [if_pos hl]
      cases hsp : managerSubmitPhase retries r.submitScript job db with
      | error e => simp only [hsp]; exact h
      | ok p =>
        obtain ⟨job1, db1⟩ := p
        have h1 : triesInvariant job1 :=
          managerSubmitPhase_triesInvariant retries r.submitScript job db h
            job1 db1 hsp
        simp only [hsp]
        rcases hwe : waiterGo retries r.polls job1 0 with ⟨wres, job2⟩
        have h2 : triesInvariant job2 := by
          have := waiterGo_triesInvariant retries r.polls job1 0 h1
          rw [hwe] at this
          exact this
        cases wres with
        | raised e => exact h2
        | fuelOut => exact h2
        | gaveUp => exact h2
        | done jd =>
          show triesInvariant
            ((if (jd.status == "SUCCEEDED") = true then
                (ManagerOutcome.done jd, job2, (db1.save job2).1)
              else
                if (jd.status == "FAILED") = true then
                  match jd.statusReason with
                  | none => (ManagerOutcome.done jd, job2, (db1.save job2).1)
                  | some reason =>
                    if spotReclaimMatch reason = true then
                      managerGo retries rest job2.reset
                        ((db1.save job2).1.save job2.reset).1
                    else (ManagerOutcome.done jd, job2, (db1.save job2).1)
                else managerGo retries rest job2 (db1.save job2).1)).2.1
          split
          · exact h2
          · split
            · split
              · exact h2
              · split
                · exact ih job2.reset _ (reset_triesInvariant job2 h2)
                · exact h2
            · exact ih job2 _ h2

/-- C9: a Job Record constructed with the default tries fields satisfies
`num_tries == len(job_tries)`, and the invariant is preserved by the
engine operations: the submit loop (a successful submit appends the new
id and increments the counter together), the waiter, `reset`, and the
whole manager loop. -/
theorem C9_tries_invariant :
    (∀ i : JobInit, i.job_tries = none → i.num_tries = 0 →
        triesInvariant (AWSBatchJob.create i))
    ∧ (∀ (script : Nat → SubmitOutcome) (job : AWSBatchJob) (tries fuel : Nat),
        triesInvariant job →
          triesInvariant (submitFrom script job tries fuel).2.1)
    ∧ (∀ (retries : Nat) (polls : List (Nat → DescribeOutcome))
          (job : AWSBatchJob) (f : Nat),
        triesInvariant job → triesInvariant (waiterGo retries polls job f).2)
    ∧ (∀ job : AWSBatchJob, triesInvariant job → triesInvariant job.reset)
    ∧ (∀ (retries : Nat) (rounds : List ManagerRound) (job : AWSBatchJob)
          (db : AWSBatchDB),
        triesInvariant job →
          triesInvariant (managerGo retries rounds job db).2.1) := by
  refine ⟨?_, ?_, ?_, ?_, ?_⟩
  · intro i h1 h2
    simp [triesInvariant, AWSBatchJob.create, h1, h2]
  · intro script job tries fuel h
    exact submitFrom_triesInvariant script fuel job tries h
  · intro retries polls job f h
    exact waiterGo_triesInvariant retries polls job f h
  · exact reset_triesInvariant
  · intro retries rounds job db h
    exact managerGo_triesInvariant retries rounds job db h

/-- Witness for C9: the default-constructed job and the submitted job. -/
theorem C9_tries_invariant_witness :
    triesInvariant (AWSBatchJob.create cJobInit) ∧ triesInvariant cJobId.reset :=
  ⟨C9_tries_invariant.1 cJobInit rfl rfl,
   C9_tries_invariant.2.2.2.1 cJobId rfl⟩

end AioAwsBatch
